import Mathlib

/-!
# Verification of the Job Search API query builder and result mapper

Shallow embedding of `src/app/routers/search.py` (functions
`build_search_query`, `opensearch_hit_to_job_result_item`, and the
`search_jobs` handler body) together with the parts of the data model the
handler relies on.

Loosely-typed search-engine documents are modelled by a JSON-like value
type `JValue`; Python dictionaries become association lists; Python code
that can raise an exception is embedded in the `Except String` monad, so a
`.error` result models an uncaught Python exception at the corresponding
program point.  Numbers are modelled by `Rat` (the arithmetic performed by
the code on them is exact at every relevant input).
-/

/-- A JSON-like runtime value, modelling the loosely-typed Python values the
handler manipulates (search-engine documents, query bodies). -/
inductive JValue where
  | null : JValue
  | bool : Bool → JValue
  | num : Rat → JValue
  | str : String → JValue
  | arr : List JValue → JValue
  | obj : List (String × JValue) → JValue

/-- A Python dictionary with string keys. -/
abbrev JDict := List (String × JValue)

/-- `d.get(key)` on a Python dict: the first binding of `key`, if any. -/
def jlookup : JDict → String → Option JValue
  | [], _ => none
  | (k, v) :: rest, key => if k = key then some v else jlookup rest key

/-- `d.get(key, dflt)` on a Python dict. -/
def jget (d : JDict) (k : String) (dflt : JValue) : JValue :=
  (jlookup d k).getD dflt

/-- Accessing dict methods (`.get`) on a value: raises `AttributeError`
unless the value actually is a dict. -/
def asObj : JValue → Except String JDict
  | .obj kvs => .ok kvs
  | _ => .error "AttributeError"

/-- Pydantic validation of a `str`-typed field: any non-string value is
rejected (pydantic does not coerce other types into `str`). -/
def asStr : JValue → Except String String
  | .str s => .ok s
  | _ => .error "ValidationError"

/-- Pydantic validation of a numeric field (stored JSON numbers only). -/
def asNum : JValue → Except String Rat
  | .num q => .ok q
  | _ => .error "ValidationError"

/-- Python truthiness of a value (`if x:`). -/
def JValue.truthy : JValue → Bool
  | .null => false
  | .bool b => b
  | .num q => if q = 0 then false else true
  | .str s => if s = "" then false else true
  | .arr xs => !xs.isEmpty
  | .obj kvs => !kvs.isEmpty

/-- `for x in v`: the sequence of values Python iterates over — list
elements, dict keys, the characters of a string — or a `TypeError` for a
non-iterable value. -/
def iterValues : JValue → Except String (List JValue)
  | .arr xs => .ok xs
  | .obj kvs => .ok (kvs.map fun p => .str p.1)
  | .str s => .ok (s.data.map fun c => .str (String.mk [c]))
  | _ => .error "TypeError"

/-! ## Query builder (`build_search_query`, search.py lines 37-157) -/

/-- The `must_clauses` list built by `build_search_query`: the weighted
fuzzy multi-field relevance clause, present when the free-text string `q`
is truthy. -/
def must_clauses (q : Option String) : List JValue :=
  match q with
  | some s =>
      if s = "" then []
      else
        [ .obj [("multi_match", .obj
            [ ("query", .str s),
              ("fields", .arr
                [ .str "title^3", .str "description", .str "organisation^2",
                  .str "location", .str "summary", .str "profession",
                  .str "grade" ]),
              ("type", .str "best_fields"),
              ("fuzziness", .str "AUTO") ])] ]
  | none => []

/-- The exact-match clause contributed by the single-valued `organisation`
filter (a `term` clause on the non-analyzed keyword sub-field). -/
def organisation_clauses (organisation : Option String) : List JValue :=
  match organisation with
  | some o => if o = "" then [] else
      [ .obj [("term", .obj [("organisation.keyword", .str o)])] ]
  | none => []

/-- The "any of" clause contributed by one multi-valued filter: a `terms`
clause on `field` listing the supplied values (no clause when the list is
absent or empty, matching Python truthiness of the argument). -/
def terms_clauses (field : String) (values : Option (List String)) : List JValue :=
  match values with
  | some l => if l = [] then [] else
      [ .obj [("terms", .obj [(field, .arr (l.map JValue.str))])] ]
  | none => []

/-- The inner bounds dict of the salary range filter (search.py lines
137-141): `gte` from `salary_min` and `lte` from `salary_max`, each added
only when that bound was supplied. -/
def range_entries (salary_min salary_max : Option Rat) :
    List (String × JValue) :=
  (match salary_min with
   | some a => [("gte", JValue.num a)]
   | none => []) ++
  (match salary_max with
   | some b => [("lte", JValue.num b)]
   | none => [])

/-- The salary range clause: one `range` clause on `salary.minimum`, with
`gte` from `salary_min` and `lte` from `salary_max`, present when either
bound is supplied (`is not None`, not truthiness). -/
def salary_clauses (salary_min salary_max : Option Rat) : List JValue :=
  if salary_min.isSome || salary_max.isSome then
    [ .obj [("range", .obj
        [("salary.minimum", .obj (range_entries salary_min salary_max))])] ]
  else []

/-- The `filter_clauses` list of `build_search_query`, in the order the
Python code appends them. -/
def filter_clauses (organisation : Option String)
    (professions grades assignments working_patterns work_locations :
      Option (List String))
    (salary_min salary_max : Option Rat) : List JValue :=
  organisation_clauses organisation ++
  terms_clauses "profession.keyword" professions ++
  terms_clauses "grade" grades ++
  terms_clauses "assignmentType" assignments ++
  terms_clauses "workingPattern" working_patterns ++
  terms_clauses "workLocation" work_locations ++
  salary_clauses salary_min salary_max

/-- `build_search_query` (search.py lines 37-157): combines the relevance
clause and the filter clauses into a `bool` query, or falls back to
`match_all` when no clause was produced. -/
def build_search_query (q organisation : Option String)
    (professions grades assignments working_patterns work_locations :
      Option (List String))
    (salary_min salary_max : Option Rat) : JValue :=
  let must := must_clauses q
  let filt := filter_clauses organisation professions grades assignments
    working_patterns work_locations salary_min salary_max
  if must.isEmpty && filt.isEmpty then
    .obj [("match_all", .obj [])]
  else
    .obj [("bool", .obj
      ((if must.isEmpty then [] else [("must", JValue.arr must)]) ++
       (if filt.isEmpty then [] else [("filter", JValue.arr filt)])))]

/-- The list of filter clauses appearing in a built query under
`bool.filter` (empty when the query has no such component). -/
def query_filters (v : JValue) : List JValue :=
  match v with
  | .obj kvs =>
      match jlookup kvs "bool" with
      | some (.obj b) =>
          match jlookup b "filter" with
          | some (.arr l) => l
          | _ => []
      | _ => []
  | _ => []

/-! ## Data contracts (`jobs_data_contracts.search`)

The `jobs_data_contracts` package is an external dependency whose sources
are not part of this repository.  Its pieces are modelled from the spec:
"working pattern, work location, grade, profession, and approach are closed
enumerations with a defined fallback value"; "location is a list of
geocoded points (town name, region, latitude, longitude)"; "salary is a
structured amount with currency".  Enumeration members are represented by
their string values; each member set, and the string value of each fallback
member the mapper uses (`WorkingPattern.full_time`,
`WorkLocation.office_based`, `Assignments.permanent`, `Profession.actuary`,
`Approach.internal`), is kept abstract as a field of `Contracts`, so every
theorem below holds for whatever the package actually declares. -/

/-- Modelled from the spec: the member value sets and mapper-fallback member
values of the closed enumerations declared by the external
`jobs_data_contracts` package (not in `src/`). -/
structure Contracts where
  assignmentsMembers : List String
  gradeMembers : List String
  professionMembers : List String
  approachMembers : List String
  workingPatternFallback : String
  workLocationFallback : String
  assignmentsFallback : String
  professionFallback : String
  approachFallback : String
deriving DecidableEq

/-- Modelled from the spec: a geocoded location point of the
`jobs_data_contracts` package. -/
structure FixedLocation where
  town_name : String
  region : String
  latitude : Rat
  longitude : Rat
deriving DecidableEq

/-- Modelled from the spec: the structured salary of the
`jobs_data_contracts` package (an amount with currency). -/
structure Salary where
  minimum : Rat
  currency : String
  currency_symbol : String
deriving DecidableEq

/-- A calendar date (`datetime.date`). -/
structure Date where
  year : Nat
  month : Nat
  day : Nat
deriving DecidableEq

/-- Modelled from the spec: the strictly-typed output record
(`JobResultItem`) of the `jobs_data_contracts` package.  Enumeration-valued
fields hold the member's string value; `grade` holds either a `Grade`
member value or a plain string (the package accepts both). -/
structure JobResultItem where
  id : String
  external_id : String
  title : String
  organisation : String
  location : List FixedLocation
  working_pattern : List String
  assignment_type : String
  salary : Salary
  work_location : List String
  grade : String
  closing_date : Date
  profession : String
  approach : String
deriving DecidableEq

/-! ## Result mapper (`opensearch_hit_to_job_result_item`, search.py
lines 160-303) -/

/-- Python `str(x)` on a runtime value (containers are rendered with a
simplified element formatting; only the string/scalar cases are ever
compared by a theorem below). -/
def str_of : JValue → String
  | .null => "None"
  | .bool true => "True"
  | .bool false => "False"
  | .num q => toString q
  | .str s => s
  | .arr xs => "[" ++ String.intercalate ", "
      (xs.attach.map fun x => str_of x.1) ++ "]"
  | .obj kvs => "\x7b" ++ String.intercalate ", "
      (kvs.attach.map fun p => p.1.1 ++ ": " ++ str_of p.1.2) ++ "\x7d"
decreasing_by
  · simp only [JValue.arr.sizeOf_spec]
    have := List.sizeOf_lt_of_mem x.2
    omega
  · simp only [JValue.obj.sizeOf_spec]
    have h1 := List.sizeOf_lt_of_mem p.2
    have h2 : sizeOf p.1.2 < sizeOf p.1 := by
      obtain ⟨a, b⟩ := p.1
      simp only [Prod.mk.sizeOf_spec]
      omega
    omega

/-- Splitting a character list on a separator character (the structural
analogue of splitting a string on a one-character separator). -/
def split_on_char (sep : Char) : List Char → List (List Char)
  | [] => [[]]
  | c :: rest =>
      match split_on_char sep rest with
      | [] => [[]]
      | grp :: grps =>
          if c = sep then [] :: grp :: grps
          else (c :: grp) :: grps

/-- The natural number denoted by a list of decimal digit characters. -/
def digits_to_nat (cs : List Char) : Nat :=
  cs.foldl (fun n c => n * 10 + (c.toNat - 48)) 0

/-- Python `float(s)` on the cleaned salary string: parses an optionally
signed plain decimal literal, surrounding spaces allowed (CPython
additionally accepts exponents, `inf`/`nan` and digit underscores; those
exotic forms are not modelled and no claim depends on them — every branch
below lands in the same `try/except` fallback either way). -/
def parse_float (s : String) : Option Rat :=
  let t := ((s.data.dropWhile (fun c => c = ' ')).reverse.dropWhile
    (fun c => c = ' ')).reverse
  let (sign, rest) : Rat × List Char :=
    match t with
    | '-' :: cs => (-1, cs)
    | '+' :: cs => (1, cs)
    | cs => (1, cs)
  match split_on_char '.' rest with
  | [a] =>
      if a ≠ [] && a.all Char.isDigit then
        some (sign * (digits_to_nat a : Rat))
      else none
  | [a, b] =>
      if (a ++ b) ≠ [] && a.all Char.isDigit && b.all Char.isDigit then
        some (sign * ((digits_to_nat (a ++ b) : Rat) / (10 : Rat) ^ b.length))
      else none
  | _ => none

/-- Days in a month, as validated by `datetime.date`. -/
def days_in_month (y m : Nat) : Nat :=
  if m = 2 then
    if y % 4 = 0 && (y % 100 != 0 || y % 400 = 0) then 29 else 28
  else if m = 4 || m = 6 || m = 9 || m = 11 then 30
  else 31

/-- `date.fromisoformat` on a `YYYY-MM-DD` string (`None` models the
`ValueError` raised on any other shape). -/
def parse_iso_date (s : String) : Option Date :=
  match split_on_char '-' s.data with
  | [ys, ms, ds] =>
      if ys.length = 4 && ms.length = 2 && ds.length = 2 &&
         ys.all Char.isDigit && ms.all Char.isDigit && ds.all Char.isDigit then
        let y := digits_to_nat ys
        let m := digits_to_nat ms
        let d := digits_to_nat ds
        if 1 ≤ m && m ≤ 12 && 1 ≤ d && d ≤ days_in_month y m then
          some ⟨y, m, d⟩
        else none
      else none
  | _ => none

/-- Pydantic construction `FixedLocation(**loc)` from a stored dict:
required fields must be present with the expected primitive types (extra
keys are ignored, pydantic's default). -/
def fixed_location_of_dict (d : JDict) : Except String FixedLocation := do
  let tn ← asStr (jget d "town_name" .null)
  let rg ← asStr (jget d "region" .null)
  let la ← asNum (jget d "latitude" .null)
  let lo ← asNum (jget d "longitude" .null)
  .ok ⟨tn, rg, la, lo⟩

/-- The list comprehension of the location branch (search.py lines
198-203): each dict element is parsed as a `FixedLocation`, any other
element becomes a placeholder point named by its `str()`; the first
failure aborts the whole comprehension. -/
def locations_of_list : List JValue → Except String (List FixedLocation)
  | [] => .ok []
  | l :: rest => do
      let f ← (match l with
        | .obj d => fixed_location_of_dict d
        | other => .ok ⟨str_of other, "Unknown", 0, 0⟩)
      let fs ← locations_of_list rest
      .ok (f :: fs)

/-- Location mapping (search.py lines 185-218): legacy bare string,
non-empty list (with per-list fallback on failure), or placeholder. -/
def map_location (v : JValue) : List FixedLocation :=
  match v with
  | .str s => [⟨s, "Unknown", 0, 0⟩]
  | .arr (x :: xs) =>
      match locations_of_list (x :: xs) with
      | .ok ls => ls
      | .error _ => [⟨str_of x, "Unknown", 0, 0⟩]
  | _ => [⟨"Unknown", "Unknown", 0, 0⟩]

/-- The hardcoded member test of the working-pattern branch (search.py
line 225). -/
def wp_known : List String := ["Full-time", "Part-time"]

/-- The hardcoded member test of the work-location branch (search.py
line 255). -/
def wl_known : List String := ["Home based", "Office based"]

/-- One element of the working-pattern/work-location comprehensions:
`Enum(wp) if wp in known else fallback_member` (a non-string element never
equals a known string, so it maps to the fallback member). -/
def map_one_pattern (known : List String) (fallback : String) :
    JValue → String
  | .str s => if s ∈ known then s else fallback
  | _ => fallback

/-- The working-pattern / work-location block (search.py lines 220-227 and
250-257): a bare string is wrapped in a list; a falsy value is replaced by
the one-element default list; then every element of the iterated value is
mapped through the membership test.  Iterating a truthy non-iterable value
raises `TypeError` (uncaught). -/
def map_pattern_list (known : List String) (fallback defaultMember : String)
    (v : JValue) : Except String (List String) :=
  let data : JValue := match v with
    | .str s => .arr [.str s]
    | other => other
  if data.truthy then do
    let items ← iterValues data
    .ok (items.map (map_one_pattern known fallback))
  else
    .ok ([JValue.str defaultMember].map (map_one_pattern known fallback))

/-- `Enum(value)` under `try/except ValueError` resolution: the member
whose value equals the stored string, if any (any other stored value makes
the enum constructor raise `ValueError`, which the mapper catches). -/
def parse_enum (members : List String) : JValue → Option String
  | .str s => if s ∈ members then some s else none
  | _ => none

/-- Grade handling (search.py lines 259-264): `Grade(grade_str)` on
success, otherwise the raw stored value, or `"Unknown"` when that value is
falsy. -/
def map_grade (members : List String) (v : JValue) : JValue :=
  match parse_enum members v with
  | some s => .str s
  | none => if v.truthy then v else .str "Unknown"

/-- Pydantic construction `Salary(**salary_data)` (reached only when the
stored dict has a `minimum` key): `minimum` must be numeric; the currency
fields are modelled as defaulted optional strings. -/
def salary_of_dict (d : JDict) : Except String Salary := do
  let m ← asNum (jget d "minimum" .null)
  let c ← asStr (jget d "currency" (.str "GBP"))
  let cs ← asStr (jget d "currency_symbol" (.str "£"))
  .ok ⟨m, c, cs⟩

/-- Salary handling (search.py lines 236-248): structured dict with a
`minimum` key (validated, uncaught on failure), legacy `"£45,000"` string
(parse failure caught, zero fallback), anything else mapped to the zero
salary. -/
def map_salary (v : JValue) : Except String Salary :=
  match v with
  | .obj d =>
      if (jlookup d "minimum").isSome then salary_of_dict d
      else .ok ⟨0, "GBP", "£"⟩
  | .str s =>
      match parse_float (String.mk (s.data.filter
          (fun c => c ≠ '£' && c ≠ ','))) with
      | some q => .ok ⟨q, "GBP", "£"⟩
      | none => .ok ⟨0, "GBP", "£"⟩
  | _ => .ok ⟨0, "GBP", "£"⟩

/-- Closing-date handling (search.py lines 266-272): ISO parse with the
far-future placeholder on `ValueError`/`TypeError`. -/
def map_closing_date (v : JValue) : Date :=
  match v with
  | .str s => (parse_iso_date s).getD ⟨2099, 12, 31⟩
  | _ => ⟨2099, 12, 31⟩

/-- `opensearch_hit_to_job_result_item` (search.py lines 160-303): maps one
raw search-engine hit into a `JobResultItem`.  A `.error` result models an
uncaught Python exception (`AttributeError` on a non-dict, a pydantic
`ValidationError` from `Salary(**...)` or from the final `JobResultItem`
construction, or a `TypeError` from iterating a non-iterable); the caller
catches these per hit. -/
def opensearch_hit_to_job_result_item (C : Contracts) (hit : JValue) :
    Except String JobResultItem := do
  let hitD ← asObj hit
  let sourceD ← asObj (jget hitD "_source" (.obj []))
  let job_id := jget sourceD "id" (.str "")
  let external_id := jget sourceD "externalId" (jget sourceD "id" (.str ""))
  let title := jget sourceD "title" (.str "")
  let organisation := jget sourceD "organisation" (.str "")
  let location := map_location (jget sourceD "location" (.arr []))
  let working_pattern ← map_pattern_list wp_known C.workingPatternFallback
    "Full-time" (jget sourceD "workingPattern" (.arr []))
  let assignment_type :=
    (parse_enum C.assignmentsMembers
      (jget sourceD "assignmentType" (.str "Permanent"))).getD
      C.assignmentsFallback
  let salary ← map_salary (jget sourceD "salary" .null)
  let work_location ← map_pattern_list wl_known C.workLocationFallback
    "Office based" (jget sourceD "workLocation" (.arr []))
  let grade := map_grade C.gradeMembers (jget sourceD "grade" (.str ""))
  let closing_date := map_closing_date (jget sourceD "closingDate" (.str ""))
  let profession :=
    (parse_enum C.professionMembers
      (jget sourceD "profession" (.str ""))).getD C.professionFallback
  let approach :=
    (parse_enum C.approachMembers
      (jget sourceD "approach" (.str "Internal"))).getD C.approachFallback
  let idS ← asStr job_id
  let extS ← asStr external_id
  let titleS ← asStr title
  let orgS ← asStr organisation
  let gradeS ← asStr grade
  .ok { id := idS, external_id := extS, title := titleS,
        organisation := orgS, location := location,
        working_pattern := working_pattern,
        assignment_type := assignment_type, salary := salary,
        work_location := work_location, grade := gradeS,
        closing_date := closing_date, profession := profession,
        approach := approach }

/-! ## The `search_jobs` handler (search.py lines 306-421) -/

/-- The validated request parameters of `GET /jobs` (FastAPI `Query`
validation — `page ≥ 1`, `pageSize ∈ [1, 100]`, `salary bounds ≥ 0` — runs
before the handler; theorems state those bounds as hypotheses where they
matter). -/
structure SearchParams where
  q : Option String
  organisation : Option String
  professions : Option (List String)
  grades : Option (List String)
  assignments : Option (List String)
  working_patterns : Option (List String)
  work_locations : Option (List String)
  salary_min : Option Rat
  salary_max : Option Rat
  page : Nat
  page_size : Option Nat

/-- The effective page size: the supplied one, or the configured default
(`settings.default_page_size`) when the parameter was omitted. -/
def effective_page_size (dps : Nat) (p : SearchParams) : Nat :=
  p.page_size.getD dps

/-- The request body `search_jobs` sends to the search engine (search.py
lines 360-368): query, offset `from = (page - 1) * page_size`, `size`, and
the fixed two-key sort specification. -/
def search_request_body (dps : Nat) (p : SearchParams) : JDict :=
  [ ("query", build_search_query p.q p.organisation p.professions p.grades
      p.assignments p.working_patterns p.work_locations
      p.salary_min p.salary_max),
    ("from", .num (((p.page - 1) * effective_page_size dps p : Nat) : Rat)),
    ("size", .num ((effective_page_size dps p : Nat) : Rat)),
    ("sort", .arr
      [ .obj [("_score", .obj [("order", .str "desc")])],
        .obj [("id", .obj [("order", .str "asc")])] ]) ]

/-- Total extraction (search.py line 374):
`total_hits.get("value", 0) if isinstance(total_hits, dict) else total_hits`. -/
def extract_total (totalHits : JValue) : JValue :=
  match totalHits with
  | .obj kvs => jget kvs "value" (.num 0)
  | v => v

/-- The extracted total as a count: a non-negative integer number (any
other value would make the later arithmetic or the response model's
`ge=0` integer validation raise, surfacing as the handler's generic
500 error). -/
def as_total : JValue → Except String Nat
  | .num q => if q.den = 1 && 0 ≤ q.num then .ok q.num.toNat
              else .error "ValidationError"
  | _ => .error "TypeError"

/-- The per-hit mapping loop (search.py lines 376-383): each hit is mapped,
a hit whose mapping raises is logged and skipped, the rest accumulate in
order. -/
def collect_results (C : Contracts) (hits : List JValue) :
    List JobResultItem :=
  hits.foldl
    (fun acc h =>
      match opensearch_hit_to_job_result_item C h with
      | .ok r => acc ++ [r]
      | .error _ => acc) []

/-- The applied-filters echo string (search.py lines 389-407).  Note
`salaryMin`/`salaryMax` use an `is not None` test while the others use
truthiness; numeric rendering approximates Python float formatting, which
no claim inspects. -/
def applied_filters_str (p : SearchParams) : String :=
  let parts : List String :=
    (match p.organisation with
     | some o => if o = "" then [] else ["organisation=" ++ o]
     | none => []) ++
    (match p.professions with
     | some l => if l = [] then [] else
         ["professions=" ++ String.intercalate "," l]
     | none => []) ++
    (match p.grades with
     | some l => if l = [] then [] else
         ["grades=" ++ String.intercalate "," l]
     | none => []) ++
    (match p.assignments with
     | some l => if l = [] then [] else
         ["assignments=" ++ String.intercalate "," l]
     | none => []) ++
    (match p.working_patterns with
     | some l => if l = [] then [] else
         ["workingPatterns=" ++ String.intercalate "," l]
     | none => []) ++
    (match p.work_locations with
     | some l => if l = [] then [] else
         ["workLocations=" ++ String.intercalate "," l]
     | none => []) ++
    (match p.salary_min with
     | some a => ["salaryMin=" ++ toString a]
     | none => []) ++
    (match p.salary_max with
     | some b => ["salaryMax=" ++ toString b]
     | none => [])
  String.intercalate "; " parts

/-- The search response returned to the caller (the
`jobs_data_contracts.search.JobSearchResponse` constructed at search.py
line 409; modelled from the spec: results plus pagination metadata and an
echo of the applied query/filters). -/
structure JobSearchResponse where
  results : List JobResultItem
  total : Nat
  page : Nat
  pageSize : Nat
  totalPages : Nat
  query : String
  appliedFilters : String
deriving DecidableEq

/-- Response assembly of `search_jobs` (search.py lines 371-417): extract
the total and the hit list from the engine response, map the hits with
per-hit failures skipped, and compute `totalPages` as
`math.ceil(total / page_size) if total > 0 else 0` (embedded as the exact
ceiling `(total + page_size - 1) / page_size`; request validation
guarantees `page_size ≥ 1`). -/
def search_jobs_assemble (C : Contracts) (dps : Nat) (p : SearchParams)
    (resp : JDict) : Except String JobSearchResponse := do
  let hitsD ← asObj (jget resp "hits" (.obj []))
  let total ← as_total (extract_total (jget hitsD "total" (.obj [])))
  let hitList ← iterValues (jget hitsD "hits" (.arr []))
  let results := collect_results C hitList
  let page_size := effective_page_size dps p
  let total_pages := if 0 < total then (total + page_size - 1) / page_size
                     else 0
  .ok { results := results, total := total, page := p.page,
        pageSize := page_size, totalPages := total_pages,
        query := p.q.getD "", appliedFilters := applied_filters_str p }

/-- The full `search_jobs` handler body: build the request body, send it to
the engine (modelled as a function from request body to response dict), and
assemble the response. -/
def search_jobs (C : Contracts) (dps : Nat) (engine : JDict → JDict)
    (p : SearchParams) : Except String JobSearchResponse :=
  search_jobs_assemble C dps p (engine (search_request_body dps p))

/-- A well-formed engine response carrying match count `t` and hit list
`hl` (the shape OpenSearch returns). -/
def mkResp (t : Nat) (hl : List JValue) : JDict :=
  [("hits", .obj
    [ ("total", .obj [("value", .num (t : Rat))]),
      ("hits", .arr hl) ])]

/-! ## The `GET /jobs/:id` endpoint -/

/-- Modelled from the spec: the `GET /jobs/:id` handler is not among the
sources provided in `src/` (only `src/tests/test_api.py` exercises it).
Per the spec, it "returns a single record or a not-found signal", and "for
an identifier with no matching document" the response is not-found; the
index is modelled as the list of stored documents keyed by their
identifier, and the not-found signal as an HTTP 404 error. -/
def get_job_by_id (index : List (String × JDict)) (jobId : String) :
    Except Nat JDict :=
  match index.find? (fun d => d.1 == jobId) with
  | none => .error 404
  | some d => .ok d.2

/-! ## Auxiliary predicates and sample inputs used by the theorems -/

/-- Whether a clause is a `range` clause (used to count salary-range
clauses in a built query). -/
def is_range_clause : JValue → Bool
  | .obj [("range", _)] => true
  | _ => false

/-- A hit whose `_source`, when present, is a dict all of whose stored
values are strings (the well-typed/legacy-string fragment of the document
space, over which the mapper is total). -/
def stringy_source (hit : JValue) : Bool :=
  match hit with
  | .obj hitD =>
      match jlookup hitD "_source" with
      | none => true
      | some (.obj kvs) =>
          kvs.all fun p =>
            match p.2 with
            | .str _ => true
            | _ => false
      | some _ => false
  | _ => false

/-- A sample instantiation of the external data-contract enumerations,
used by the concrete-input theorems below. -/
def sampleContracts : Contracts :=
  { assignmentsMembers := ["Permanent"], gradeMembers := ["Grade 7"],
    professionMembers := ["Policy"], approachMembers := ["Internal"],
    workingPatternFallback := "Full-time",
    workLocationFallback := "Office based",
    assignmentsFallback := "Permanent", professionFallback := "Actuary",
    approachFallback := "Internal" }

/-- Sample request parameters: page 2 with page size 20 and no query or
filters (the spec's pagination scenario). -/
def sampleParams : SearchParams :=
  { q := none, organisation := none, professions := none, grades := none,
    assignments := none, working_patterns := none, work_locations := none,
    salary_min := none, salary_max := none, page := 2, page_size := some 20 }

/-! ## Helper lemmas -/

/-- When at least one filter clause was produced, the built query carries
exactly the `filter_clauses` list under `bool.filter`. -/
theorem query_filters_build (q organisation : Option String)
    (professions grades assignments working_patterns work_locations :
      Option (List String))
    (salary_min salary_max : Option Rat)
    (h : filter_clauses organisation professions grades assignments
      working_patterns work_locations salary_min salary_max ≠ []) :
    query_filters (build_search_query q organisation professions grades
      assignments working_patterns work_locations salary_min salary_max) =
    filter_clauses organisation professions grades assignments
      working_patterns work_locations salary_min salary_max := by
  unfold build_search_query query_filters
  have hne : (filter_clauses organisation professions grades assignments
      working_patterns work_locations salary_min salary_max).isEmpty
        = false := by
    simpa [List.isEmpty_iff] using h
  cases hm : (must_clauses q).isEmpty <;>
    simp [hne, hm, jlookup]

/-- Any produced filter clause appears in the built query. -/
theorem mem_query_filters (q organisation : Option String)
    (professions grades assignments working_patterns work_locations :
      Option (List String))
    (salary_min salary_max : Option Rat) (x : JValue)
    (hx : x ∈ filter_clauses organisation professions grades assignments
      working_patterns work_locations salary_min salary_max) :
    x ∈ query_filters (build_search_query q organisation professions grades
      assignments working_patterns work_locations salary_min salary_max) := by
  have hne : filter_clauses organisation professions grades assignments
      working_patterns work_locations salary_min salary_max ≠ [] := by
    intro hc
    rw [hc] at hx
    exact absurd hx (List.not_mem_nil x)
  rw [query_filters_build q organisation professions grades assignments
    working_patterns work_locations salary_min salary_max hne]
  exact hx

/-- An organisation clause is never a range clause. -/
theorem countP_organisation_clauses (o : Option String) :
    (organisation_clauses o).countP is_range_clause = 0 := by
  cases o with
  | none => rfl
  | some s =>
      by_cases h : s = "" <;> simp [organisation_clauses, h, is_range_clause]

/-- A terms clause is never a range clause. -/
theorem countP_terms_clauses (f : String) (v : Option (List String)) :
    (terms_clauses f v).countP is_range_clause = 0 := by
  cases v with
  | none => rfl
  | some l =>
      rcases l with _ | ⟨a, l⟩ <;> simp [terms_clauses, is_range_clause]

/-! ## Claim theorems -/

/-- C7: for every call to `build_search_query` in which the free-text
string is absent and no filter (organisation, professions, grades,
assignments, working patterns, work locations, salary min, salary max) is
supplied, the returned query is the match-all query that matches every
document unconditionally. -/
theorem claim7_match_all_when_no_input (q organisation : Option String)
    (professions grades assignments working_patterns work_locations :
      Option (List String))
    (salary_min salary_max : Option Rat)
    (hq : q = none) (ho : organisation = none) (hp : professions = none)
    (hg : grades = none) (ha : assignments = none)
    (hw : working_patterns = none) (hl : work_locations = none)
    (hmin : salary_min = none) (hmax : salary_max = none) :
    build_search_query q organisation professions grades assignments
      working_patterns work_locations salary_min salary_max =
      .obj [("match_all", .obj [])] := by
  subst hq ho hp hg ha hw hl hmin hmax
  rfl

/-- Witness for C7 at the all-absent input. -/
theorem claim7_witness :
    build_search_query none none none none none none none none none =
      .obj [("match_all", .obj [])] :=
  claim7_match_all_when_no_input none none none none none none none none none
    rfl rfl rfl rfl rfl rfl rfl rfl rfl

/-- C8: for every page ≥ 1 and every page size, the offset sent to the
search engine equals (page − 1) × page size. -/
theorem claim8_offset (dps : Nat) (p : SearchParams) (h : 1 ≤ p.page) :
    jlookup (search_request_body dps p) "from" =
      some (.num (((p.page - 1) * effective_page_size dps p : Nat) : Rat)) := by
  simp [search_request_body, jlookup]

/-- Witness for C8: page 2 with page size 20 yields offset 20. -/
theorem claim8_witness :
    1 ≤ sampleParams.page ∧
    jlookup (search_request_body 10 sampleParams) "from" =
      some (.num 20) := by
  refine ⟨by decide, ?_⟩
  have h := claim8_offset 10 sampleParams (by decide)
  simpa [effective_page_size, sampleParams] using h

/-- C10: every search request body carries the same fixed sort
specification — relevance score descending, then the `id` field
ascending. -/
theorem claim10_fixed_sort (dps : Nat) (p : SearchParams) :
    jlookup (search_request_body dps p) "sort" =
      some (.arr
        [ .obj [("_score", .obj [("order", .str "desc")])],
          .obj [("id", .obj [("order", .str "asc")])] ]) := by
  simp [search_request_body, jlookup]

/-- C2: for every identifier with no matching document in the index, a
`GET /jobs/:id` request yields a distinct not-found response, and for an
identifier with a matching document it returns that single record
(modelled from the spec, the handler not being among the provided
sources). -/
theorem claim2_get_job_by_id (index : List (String × JDict))
    (jobId : String) :
    ((∀ d ∈ index, d.1 ≠ jobId) →
      get_job_by_id index jobId = .error 404) ∧
    (∀ doc, (jobId, doc) ∈ index →
      (∀ d ∈ index, d.1 = jobId → d = (jobId, doc)) →
      get_job_by_id index jobId = .ok doc) := by
  constructor
  · intro hnone
    unfold get_job_by_id
    have hf : index.find? (fun d => d.1 == jobId) = none := by
      apply List.find?_eq_none.mpr
      intro d hd
      simpa using hnone d hd
    simp [hf]
  · intro doc hmem huniq
    unfold get_job_by_id
    cases hf : index.find? (fun d => d.1 == jobId) with
    | none =>
        exfalso
        have := List.find?_eq_none.mp hf (jobId, doc) hmem
        simp at this
    | some d =>
        have hd : d ∈ index := List.mem_of_find?_eq_some hf
        have hfst : d.1 = jobId := by
          have := List.find?_some hf
          simpa using this
        have hde : d = (jobId, doc) := huniq d hd hfst
        simp [hde]

/-- Witness for C2 on a one-document index: a missing identifier yields
404, the stored identifier yields its record. -/
theorem claim2_witness :
    get_job_by_id [("a", ([] : JDict))] "b" = .error 404 ∧
    get_job_by_id [("a", ([] : JDict))] "a" = .ok [] := by
  constructor
  · exact (claim2_get_job_by_id [("a", [])] "b").1 (by decide)
  · exact (claim2_get_job_by_id [("a", [])] "a").2 []
      (List.mem_singleton.mpr rfl)
      (fun d hd _ => List.mem_singleton.mp hd)

/-- C6 (counterexample): a filter supplied as an empty list (here
`professions = []`) produces no "any of" clause at all — the query
degenerates to match-all — rather than a `terms` clause containing exactly
those 0 values. -/
theorem claim6_counterexample :
    build_search_query none none (some []) none none none none none none =
      .obj [("match_all", .obj [])] ∧
    query_filters (build_search_query none none (some []) none none none
      none none none) = [] :=
  ⟨rfl, rfl⟩

/-- C6 (amended): for every filter supplied as a NON-EMPTY list of N
values, `build_search_query` emits an "any of" (`terms`) clause containing
exactly those N values on the corresponding field, and for the
organisation filter supplied as a non-empty single value it emits an
equality (`term`) clause with that value; an empty list or empty string
contributes no clause. -/
theorem claim6_filter_clauses (q organisation : Option String)
    (professions grades assignments working_patterns work_locations :
      Option (List String))
    (salary_min salary_max : Option Rat) :
    (∀ o, organisation = some o → o ≠ "" →
      JValue.obj [("term", .obj [("organisation.keyword", .str o)])] ∈
        query_filters (build_search_query q organisation professions grades
          assignments working_patterns work_locations salary_min
          salary_max)) ∧
    (∀ l, professions = some l → l ≠ [] →
      JValue.obj [("terms", .obj [("profession.keyword",
          .arr (l.map JValue.str))])] ∈
        query_filters (build_search_query q organisation professions grades
          assignments working_patterns work_locations salary_min
          salary_max)) ∧
    (∀ l, grades = some l → l ≠ [] →
      JValue.obj [("terms", .obj [("grade", .arr (l.map JValue.str))])] ∈
        query_filters (build_search_query q organisation professions grades
          assignments working_patterns work_locations salary_min
          salary_max)) ∧
    (∀ l, assignments = some l → l ≠ [] →
      JValue.obj [("terms", .obj [("assignmentType",
          .arr (l.map JValue.str))])] ∈
        query_filters (build_search_query q organisation professions grades
          assignments working_patterns work_locations salary_min
          salary_max)) ∧
    (∀ l, working_patterns = some l → l ≠ [] →
      JValue.obj [("terms", .obj [("workingPattern",
          .arr (l.map JValue.str))])] ∈
        query_filters (build_search_query q organisation professions grades
          assignments working_patterns work_locations salary_min
          salary_max)) ∧
    (∀ l, work_locations = some l → l ≠ [] →
      JValue.obj [("terms", .obj [("workLocation",
          .arr (l.map JValue.str))])] ∈
        query_filters (build_search_query q organisation professions grades
          assignments working_patterns work_locations salary_min
          salary_max)) := by
  refine ⟨?_, ?_, ?_, ?_, ?_, ?_⟩ <;>
    intro l hsome hne <;>
    apply mem_query_filters <;>
    simp [filter_clauses, organisation_clauses, terms_clauses, hsome, hne]

/-- Witness for C6 (amended): a two-value professions filter and a
single-value organisation filter each land in the query's filter list. -/
theorem claim6_witness :
    JValue.obj [("term", .obj [("organisation.keyword", .str "HMRC")])] ∈
      query_filters (build_search_query none (some "HMRC")
        (some ["Policy", "Tax"]) none none none none none none) ∧
    JValue.obj [("terms", .obj [("profession.keyword",
        .arr [.str "Policy", .str "Tax"])])] ∈
      query_filters (build_search_query none (some "HMRC")
        (some ["Policy", "Tax"]) none none none none none none) := by
  constructor
  · exact (claim6_filter_clauses none (some "HMRC") (some ["Policy", "Tax"])
      none none none none none none).1 "HMRC" rfl (by decide)
  · have h := (claim6_filter_clauses none (some "HMRC")
      (some ["Policy", "Tax"]) none none none none none none).2.1
      ["Policy", "Tax"] rfl (by decide)
    simpa using h

/-- C9: for every request supplying salary_min and/or salary_max,
`build_search_query` emits exactly one range clause, it sits on the
document field `salary.minimum`, with salary_min as its `gte` bound and
salary_max as its `lte` bound; no other salary field is constrained. -/
theorem claim9_salary_range (q organisation : Option String)
    (professions grades assignments working_patterns work_locations :
      Option (List String))
    (salary_min salary_max : Option Rat)
    (h : salary_min.isSome ∨ salary_max.isSome) :
    ((query_filters (build_search_query q organisation professions grades
        assignments working_patterns work_locations salary_min
        salary_max)).countP is_range_clause = 1) ∧
    JValue.obj [("range", .obj [("salary.minimum",
        .obj (range_entries salary_min salary_max))])] ∈
      query_filters (build_search_query q organisation professions grades
        assignments working_patterns work_locations salary_min
        salary_max) := by
  have hsal : salary_clauses salary_min salary_max =
      [ .obj [("range", .obj [("salary.minimum",
          .obj (range_entries salary_min salary_max))])] ] := by
    have hb : (salary_min.isSome || salary_max.isSome) = true := by
      rcases h with h | h <;> simp [h]
    unfold salary_clauses
    rw [if_pos hb]
  have hne : filter_clauses organisation professions grades assignments
      working_patterns work_locations salary_min salary_max ≠ [] := by
    intro hc
    simp [filter_clauses, hsal] at hc
  rw [query_filters_build q organisation professions grades assignments
    working_patterns work_locations salary_min salary_max hne]
  constructor
  · simp [filter_clauses, List.countP_append, countP_organisation_clauses,
      countP_terms_clauses, hsal, is_range_clause]
  · simp [filter_clauses, hsal]

/-- Witness for C9: a request with salary_min = 30000 and no salary_max
yields exactly one range clause, on `salary.minimum` with only a `gte`
bound. -/
theorem claim9_witness :
    ((query_filters (build_search_query none none none none none none none
        (some 30000) none)).countP is_range_clause = 1) ∧
    JValue.obj [("range", .obj [("salary.minimum",
        .obj [("gte", JValue.num 30000)])])] ∈
      query_filters (build_search_query none none none none none none none
        (some 30000) none) := by
  have h := claim9_salary_range none none none none none none none
    (some 30000) none (Or.inl rfl)
  simpa [range_entries] using h

/-- The exact ceiling `(t + s - 1) / s` on naturals agrees with the
rational ceiling `total / page_size` the code computes. -/
theorem ceil_div_cast (t s : Nat) (hs : 0 < s) :
    (((t + s - 1) / s : Nat) : ℤ) = ⌈(t : ℚ) / (s : ℚ)⌉ := by
  have hmod := Nat.div_add_mod (t + s - 1) s
  set n := (t + s - 1) / s with hn
  set r := (t + s - 1) % s with hr
  have hrs : r < s := Nat.mod_lt _ hs
  have h1 : t ≤ s * n := by omega
  have h2 : s * n < t + s := by omega
  have hsQ : (0 : ℚ) < (s : ℚ) := by exact_mod_cast hs
  rw [eq_comm, Int.ceil_eq_iff]
  constructor
  · rw [lt_div_iff₀ hsQ]
    push_cast
    have h2Q : (s : ℚ) * (n : ℚ) < (t : ℚ) + (s : ℚ) := by exact_mod_cast h2
    nlinarith
  · rw [div_le_iff₀ hsQ]
    push_cast
    have h1Q : (t : ℚ) ≤ (s : ℚ) * (n : ℚ) := by exact_mod_cast h1
    nlinarith

/-- The accumulating per-hit loop equals a filterMap over the hit list. -/
theorem collect_results_eq (C : Contracts) (hits : List JValue) :
    collect_results C hits =
      hits.filterMap
        (fun h => (opensearch_hit_to_job_result_item C h).toOption) := by
  have key : ∀ (l : List JValue) (acc : List JobResultItem),
      l.foldl (fun acc h =>
        match opensearch_hit_to_job_result_item C h with
        | .ok r => acc ++ [r]
        | .error _ => acc) acc
      = acc ++ l.filterMap
          (fun h => (opensearch_hit_to_job_result_item C h).toOption) := by
    intro l
    induction l with
    | nil => intro acc; simp
    | cons x xs ih =>
        intro acc
        simp only [List.foldl_cons, List.filterMap_cons]
        cases hx : opensearch_hit_to_job_result_item C x with
        | ok r => simp [hx, ih, Except.toOption]
        | error e => simp [hx, ih, Except.toOption]
  simpa [collect_results] using key hits []

/-- On a well-formed engine response the handler assembles exactly this
response record. -/
theorem assemble_mkResp (C : Contracts) (dps : Nat) (p : SearchParams)
    (t : Nat) (hl : List JValue) :
    search_jobs_assemble C dps p (mkResp t hl) =
      .ok { results := collect_results C hl, total := t, page := p.page,
            pageSize := effective_page_size dps p,
            totalPages := if 0 < t then
              (t + effective_page_size dps p - 1) / effective_page_size dps p
              else 0,
            query := p.q.getD "", appliedFilters := applied_filters_str p } := by
  have htot : as_total (.num (t : ℚ)) = .ok t := by
    simp [as_total, Rat.den_natCast, Rat.num_natCast]
  simp [search_jobs_assemble, mkResp, jget, jlookup, extract_total, asObj,
    iterValues, htot, Bind.bind, Except.bind]

/-- C3: for every search response, the totalPages field equals 0 when the
total match count is 0, and equals ceiling(total / pageSize) when
total > 0. -/
theorem claim3_total_pages (C : Contracts) (dps : Nat) (p : SearchParams)
    (t : Nat) (hl : List JValue)
    (hps : 0 < effective_page_size dps p) :
    ∃ resp, search_jobs_assemble C dps p (mkResp t hl) = .ok resp ∧
      (t = 0 → resp.totalPages = 0) ∧
      (0 < t → (resp.totalPages : ℤ) =
        ⌈(t : ℚ) / (effective_page_size dps p : ℚ)⌉) := by
  refine ⟨_, assemble_mkResp C dps p t hl, ?_, ?_⟩
  · intro ht
    simp [ht]
  · intro ht
    simp only [if_pos ht]
    exact ceil_div_cast t (effective_page_size dps p) hps

/-- Witness for C3: 50 matches at page size 20 give ⌈50/20⌉ = 3 total
pages. -/
theorem claim3_witness :
    ∃ resp, search_jobs_assemble sampleContracts 10 sampleParams
        (mkResp 50 []) = .ok resp ∧
      (50 = 0 → resp.totalPages = 0) ∧
      (0 < 50 → (resp.totalPages : ℤ) =
        ⌈(50 : ℚ) / (effective_page_size 10 sampleParams : ℚ)⌉) :=
  claim3_total_pages sampleContracts 10 sampleParams 50 [] (by decide)

/-- C4: a hit whose mapping raises is excluded from the returned results
list, the remaining hits are still mapped and returned in order, and the
reported total field is the search engine's match count, not decremented
by the number of excluded documents. -/
theorem claim4_skip_failing_hit (C : Contracts) (dps : Nat)
    (p : SearchParams) (t : Nat) (pre post : List JValue) (h : JValue)
    (e : String)
    (hfail : opensearch_hit_to_job_result_item C h = .error e) :
    ∃ resp, search_jobs_assemble C dps p (mkResp t (pre ++ h :: post)) =
        .ok resp ∧
      resp.results = (pre ++ post).filterMap
        (fun x => (opensearch_hit_to_job_result_item C x).toOption) ∧
      resp.total = t := by
  refine ⟨_, assemble_mkResp C dps p t (pre ++ h :: post), ?_, rfl⟩
  simp [collect_results_eq, List.filterMap_append, List.filterMap_cons,
    hfail, Except.toOption]

/-- Witness for C4: a batch holding one well-formed hit and one hit whose
mapping raises (a non-dict hit) yields that one mapped result while total
stays at the engine's count of 5. -/
theorem claim4_witness :
    ∃ resp, search_jobs_assemble sampleContracts 10 sampleParams
        (mkResp 5 ([JValue.obj []] ++ JValue.num 3 :: [])) = .ok resp ∧
      resp.results = ([JValue.obj []] ++ []).filterMap
        (fun x =>
          (opensearch_hit_to_job_result_item sampleContracts x).toOption) ∧
      resp.total = 5 :=
  claim4_skip_failing_hit sampleContracts 10 sampleParams 5
    [JValue.obj []] [] (JValue.num 3) "AttributeError" rfl

/-- C1 (counterexample): a hit whose `_source` field is wrongly typed (not
a dictionary) makes the mapper raise `AttributeError` instead of
returning a `JobResultItem` — the mapper is not total on arbitrary
dictionaries. -/
theorem claim1_counterexample :
    opensearch_hit_to_job_result_item sampleContracts
      (.obj [("_source", .num 5)]) = .error "AttributeError" := rfl

/-- A successful dict lookup returns a stored binding. -/
theorem jlookup_mem (kvs : JDict) (k : String) (v : JValue)
    (h : jlookup kvs k = some v) : (k, v) ∈ kvs := by
  induction kvs with
  | nil => simp [jlookup] at h
  | cons p rest ih =>
      obtain ⟨k', v'⟩ := p
      by_cases hk : k' = k
      · subst hk
        simp [jlookup] at h
        simp [h]
      · simp [jlookup, hk] at h
        exact List.mem_cons_of_mem _ (ih h)

/-- On a dict whose stored values are all strings, every `get` yields
either the supplied default or a string. -/
theorem jget_stringy (kvs : JDict)
    (hall : (kvs.all fun p =>
      match p.2 with
      | .str _ => true
      | _ => false) = true)
    (k : String) (dflt : JValue) :
    jget kvs k dflt = dflt ∨ ∃ s, jget kvs k dflt = .str s := by
  unfold jget
  cases hk : jlookup kvs k with
  | none => left; rfl
  | some v =>
      right
      have hmem := jlookup_mem kvs k v hk
      have hv := List.all_eq_true.mp hall _ hmem
      cases v with
      | str s => exact ⟨s, rfl⟩
      | null => simp at hv
      | bool b => simp at hv
      | num q => simp at hv
      | arr xs => simp at hv
      | obj o => simp at hv

/-- The working-pattern/work-location block on a bare string input. -/
theorem map_pattern_list_str (known : List String) (fb dm s : String) :
    map_pattern_list known fb dm (.str s) =
      .ok [if s ∈ known then s else fb] := rfl

/-- The working-pattern/work-location block never raises on a missing or
string-valued field. -/
theorem map_pattern_list_total (known : List String) (fb dm : String)
    (v : JValue) (hv : v = .arr [] ∨ ∃ s, v = .str s) :
    ∃ w, map_pattern_list known fb dm v = .ok w := by
  rcases hv with hv | ⟨s, hv⟩ <;> subst hv
  · exact ⟨_, rfl⟩
  · exact ⟨_, map_pattern_list_str known fb dm s⟩

/-- The salary block never raises on a missing or string-valued field. -/
theorem map_salary_total (v : JValue) (hv : v = .null ∨ ∃ s, v = .str s) :
    ∃ x, map_salary v = .ok x := by
  rcases hv with hv | ⟨s, hv⟩ <;> subst hv
  · exact ⟨_, rfl⟩
  · unfold map_salary
    have key : ∀ (o : Option Rat), ∃ x,
        (match o with
         | some q => Except.ok (⟨q, "GBP", "£"⟩ : Salary)
         | none => Except.ok (⟨0, "GBP", "£"⟩ : Salary))
          = (Except.ok x : Except String Salary) := by
      intro o
      cases o <;> exact ⟨_, rfl⟩
    exact key _

/-- The grade block always yields a string on a string-valued field. -/
theorem map_grade_str (members : List String) (s : String) :
    ∃ u, map_grade members (.str s) = .str u := by
  unfold map_grade parse_enum
  by_cases h : s ∈ members
  · exact ⟨s, by simp [h]⟩
  · by_cases h0 : s = ""
    · subst h0
      exact ⟨"Unknown", by simp [h, JValue.truthy]⟩
    · exact ⟨s, by simp [h, h0, JValue.truthy]⟩

/-- The grade block keeps a non-empty unrecognized stored string as is. -/
theorem map_grade_not_mem (members : List String) (s : String)
    (h : s ∉ members) (h0 : s ≠ "") :
    map_grade members (.str s) = .str s := by
  simp [map_grade, parse_enum, h, JValue.truthy, h0]

/-- Core totality: on a hit whose `_source` resolves to a dict every one
of whose `get`s yields a default or a string, the mapper succeeds. -/
theorem mapper_total_core (C : Contracts) (hitD sourceD : JDict)
    (hsd : jget hitD "_source" (.obj []) = .obj sourceD)
    (hvals : ∀ k dflt, jget sourceD k dflt = dflt ∨
      ∃ s, jget sourceD k dflt = .str s) :
    ∃ r, opensearch_hit_to_job_result_item C (.obj hitD) = .ok r := by
  obtain ⟨ids, hids⟩ : ∃ s, jget sourceD "id" (.str "") = .str s := by
    rcases hvals "id" (.str "") with h | h
    exacts [⟨"", h⟩, h]
  obtain ⟨exts, hexts⟩ : ∃ s,
      jget sourceD "externalId" (jget sourceD "id" (.str "")) = .str s := by
    rcases hvals "externalId" (jget sourceD "id" (.str "")) with h | h
    · exact ⟨ids, by rw [h, hids]⟩
    · exact h
  obtain ⟨tits, htits⟩ : ∃ s, jget sourceD "title" (.str "") = .str s := by
    rcases hvals "title" (.str "") with h | h
    exacts [⟨"", h⟩, h]
  obtain ⟨orgs, horgs⟩ : ∃ s,
      jget sourceD "organisation" (.str "") = .str s := by
    rcases hvals "organisation" (.str "") with h | h
    exacts [⟨"", h⟩, h]
  obtain ⟨w, hw⟩ := map_pattern_list_total wp_known C.workingPatternFallback
    "Full-time" (jget sourceD "workingPattern" (.arr []))
    (by rcases hvals "workingPattern" (.arr []) with h | h
        exacts [Or.inl h, Or.inr h])
  obtain ⟨sal, hsal⟩ := map_salary_total (jget sourceD "salary" .null)
    (by rcases hvals "salary" .null with h | h
        exacts [Or.inl h, Or.inr h])
  obtain ⟨wl, hwl⟩ := map_pattern_list_total wl_known C.workLocationFallback
    "Office based" (jget sourceD "workLocation" (.arr []))
    (by rcases hvals "workLocation" (.arr []) with h | h
        exacts [Or.inl h, Or.inr h])
  obtain ⟨gs, hgs⟩ : ∃ s, jget sourceD "grade" (.str "") = .str s := by
    rcases hvals "grade" (.str "") with h | h
    exacts [⟨"", h⟩, h]
  obtain ⟨gu, hgu⟩ := map_grade_str C.gradeMembers gs
  rw [hids] at hexts
  refine ⟨{ id := ids, external_id := exts, title := tits,
            organisation := orgs,
            location := map_location (jget sourceD "location" (.arr [])),
            working_pattern := w,
            assignment_type := (parse_enum C.assignmentsMembers
              (jget sourceD "assignmentType" (.str "Permanent"))).getD
              C.assignmentsFallback,
            salary := sal, work_location := wl, grade := gu,
            closing_date := map_closing_date
              (jget sourceD "closingDate" (.str "")),
            profession := (parse_enum C.professionMembers
              (jget sourceD "profession" (.str ""))).getD
              C.professionFallback,
            approach := (parse_enum C.approachMembers
              (jget sourceD "approach" (.str "Internal"))).getD
              C.approachFallback }, ?_⟩
  unfold opensearch_hit_to_job_result_item
  simp [Bind.bind, Except.bind, asObj, hsd, hids, hexts, htits, horgs,
    hw, hsal, hwl, hgs, hgu, asStr]

/-- C1 (amended): the mapper returns a `JobResultItem` without raising for
every hit whose `_source` field is absent or is a dictionary of
string-valued (or absent) fields, every field falling back to its defined
default; hits with a wrongly-typed `_source` (or other non-string
malformed sub-structures, such as a salary object with a non-numeric
minimum) can make the mapper raise, which the batch loop catches per
hit. -/
theorem claim1_mapper_total_on_stringy (C : Contracts) (hit : JValue)
    (h : stringy_source hit = true) :
    ∃ r, opensearch_hit_to_job_result_item C hit = .ok r := by
  cases hit with
  | obj hitD =>
      simp only [stringy_source] at h
      cases hsrc : jlookup hitD "_source" with
      | none =>
          apply mapper_total_core C hitD []
          · simp [jget, hsrc]
          · intro k dflt
            left
            simp [jget, jlookup]
      | some v =>
          rw [hsrc] at h
          cases v with
          | obj kvs =>
              apply mapper_total_core C hitD kvs
              · simp [jget, hsrc]
              · exact jget_stringy kvs h
          | null => simp at h
          | bool b => simp at h
          | num q => simp at h
          | str s => simp at h
          | arr xs => simp at h
  | null => simp [stringy_source] at h
  | bool b => simp [stringy_source] at h
  | num q => simp [stringy_source] at h
  | str s => simp [stringy_source] at h
  | arr xs => simp [stringy_source] at h

/-- Witness for C1 (amended): a hit with only string fields maps
successfully. -/
theorem claim1_witness :
    stringy_source (.obj [("_source", .obj
      [("id", .str "j1"), ("title", .str "T")])]) = true ∧
    ∃ r, opensearch_hit_to_job_result_item sampleContracts
      (.obj [("_source", .obj [("id", .str "j1"), ("title", .str "T")])]) =
        .ok r :=
  ⟨by decide,
   claim1_mapper_total_on_stringy sampleContracts
     (.obj [("_source", .obj [("id", .str "j1"), ("title", .str "T")])])
     (by decide)⟩

/-- C5 (amended): for every document whose stored value for working
pattern, work location, assignment type, profession, or approach is a
string that is not a recognized member of that enumeration, the mapper
substitutes the documented fallback member of that enumeration; for an
unrecognized grade, however, the mapper keeps the raw stored string (or
"Unknown" when it is empty) instead of substituting an enumeration
member. -/
theorem claim5_fallbacks (C : Contracts) (wpv wlv asgv pfv apv gv : String)
    (hwp : wpv ∉ wp_known) (hwl : wlv ∉ wl_known)
    (hasg : asgv ∉ C.assignmentsMembers) (hpf : pfv ∉ C.professionMembers)
    (hap : apv ∉ C.approachMembers) (hg : gv ∉ C.gradeMembers)
    (hg0 : gv ≠ "") :
    ∃ r, opensearch_hit_to_job_result_item C (.obj [("_source", .obj
        [ ("workingPattern", .str wpv), ("workLocation", .str wlv),
          ("assignmentType", .str asgv), ("profession", .str pfv),
          ("approach", .str apv), ("grade", .str gv) ])]) = .ok r ∧
      r.working_pattern = [C.workingPatternFallback] ∧
      r.work_location = [C.workLocationFallback] ∧
      r.assignment_type = C.assignmentsFallback ∧
      r.profession = C.professionFallback ∧
      r.approach = C.approachFallback ∧
      r.grade = gv := by
  have step : opensearch_hit_to_job_result_item C (.obj [("_source", .obj
      [ ("workingPattern", .str wpv), ("workLocation", .str wlv),
        ("assignmentType", .str asgv), ("profession", .str pfv),
        ("approach", .str apv), ("grade", .str gv) ])]) =
      Except.bind (asStr (map_grade C.gradeMembers (.str gv)))
        (fun gradeS => Except.ok
          { id := "", external_id := "", title := "", organisation := "",
            location := [⟨"Unknown", "Unknown", 0, 0⟩],
            working_pattern := [map_one_pattern wp_known
              C.workingPatternFallback (.str wpv)],
            assignment_type := (parse_enum C.assignmentsMembers
              (.str asgv)).getD C.assignmentsFallback,
            salary := ⟨0, "GBP", "£"⟩,
            work_location := [map_one_pattern wl_known
              C.workLocationFallback (.str wlv)],
            grade := gradeS,
            closing_date := ⟨2099, 12, 31⟩,
            profession := (parse_enum C.professionMembers
              (.str pfv)).getD C.professionFallback,
            approach := (parse_enum C.approachMembers
              (.str apv)).getD C.approachFallback }) := rfl
  rw [step, map_grade_not_mem C.gradeMembers gv hg hg0]
  refine ⟨_, rfl, ?_, ?_, ?_, ?_, ?_, ?_⟩ <;>
    simp [map_one_pattern, parse_enum, hwp, hwl, hasg, hpf, hap]

/-- C5 (counterexample): a document whose stored grade "Zzz" is not a
member of the grade enumeration maps to the raw string "Zzz" itself — not
to any default member of the enumeration — so the grade field has no
enum-member fallback. -/
theorem claim5_counterexample :
    (opensearch_hit_to_job_result_item sampleContracts
      (.obj [("_source", .obj [("grade", .str "Zzz")])])).toOption.map
      (fun r => r.grade) = some "Zzz" ∧
    "Zzz" ∉ sampleContracts.gradeMembers := ⟨rfl, by decide⟩

/-- Witness for C5 (amended): unrecognized values in all six fields at
once, with the sample member sets. -/
theorem claim5_witness :
    ∃ r, opensearch_hit_to_job_result_item sampleContracts
      (.obj [("_source", .obj
        [ ("workingPattern", .str "Weird"), ("workLocation", .str "Moon"),
          ("assignmentType", .str "Odd"), ("profession", .str "Alchemist"),
          ("approach", .str "Sideways"), ("grade", .str "Zmax") ])]) =
        .ok r ∧
      r.working_pattern = [sampleContracts.workingPatternFallback] ∧
      r.work_location = [sampleContracts.workLocationFallback] ∧
      r.assignment_type = sampleContracts.assignmentsFallback ∧
      r.profession = sampleContracts.professionFallback ∧
      r.approach = sampleContracts.approachFallback ∧
      r.grade = "Zmax" :=
  claim5_fallbacks sampleContracts "Weird" "Moon" "Odd" "Alchemist"
    "Sideways" "Zmax" (by decide) (by decide) (by decide) (by decide)
    (by decide) (by decide) (by decide)
